import Mathlib

/-!
Shallow embedding of the `ImageValidator` pipeline of
`src/services/cloudinary.py` (repository fixibot-backend).

Modelling conventions:
* A decoded PIL image is abstracted as `Img`: its reported format string,
  pixel dimensions, the per-channel means produced by
  `ImageStat.Stat(img).mean[:3]` (exact rationals standing for the Python
  floats), and the HSV pixel data of the 100×100 downsample that the
  skin-tone fallback `_is_likely_person` computes.  Images whose statistics
  expose fewer than three channels are outside this model; every claim
  below concerns colour images.
* The ONNX classifier (`mobilenetv2-7.onnx`) is an external artifact, so
  the probability vector obtained after soft-max is an input of the model
  (`MLEnv.inference`); `none` stands for an exception raised inside the
  `try` block of `_ml_analysis`, which that function catches itself and
  turns into `False`.
* `MLEnv.mlTimeout` models the 2-second `asyncio.wait_for` around
  `_ml_analysis` firing (an `asyncio.TimeoutError` reaching the handler in
  `_validate_general`), and `MLEnv.readTimeout` the 5-second timeout of
  `file.read()` inside `validate`.
* Python exceptions reaching `validate`'s own `except` clauses are the
  constructors of `PyErr`; `validate` maps every one of them to `False`.
  A height of `0` makes `w / h` raise `ZeroDivisionError`, hence the
  explicit `zeroDivision` error before any aspect comparison.
* Rational arithmetic inside the validator is written with `mkRat` and the
  kernel-computable mirrors `ratMul`, `ratSub`, `ratAbs`, so that every
  concrete run of the validator can be settled by `decide`; the lemmas
  `ratMul_eq`, `ratSub_eq`, `ratAbs_eq`, `mkRat_div` identify them with
  the ordinary field operations on `ℚ`.  Numeric constants of the source
  appear as exact rationals, e.g. `1.2 = mkRat 6 5`, `1.5 = mkRat 3 2`,
  `0.15 = mkRat 3 20`, `0.3 = mkRat 3 10`.
* Outcomes carry, besides the boolean the Python function returns,
  bookkeeping flags recording which validation stages actually executed,
  so that "no heuristic / colour / text / ML stage ran" is statable.
-/

/-- A decoded raster image as the validator observes it. -/
structure Img where
  format : String
  width : Nat
  height : Nat
  meanR : ℚ
  meanG : ℚ
  meanB : ℚ
  /-- HSV triples of the 100×100 downsample used by `_is_likely_person`. -/
  hsvPixels : List (Nat × Nat × Nat)
deriving Repr, DecidableEq

/-- External/nondeterministic facts a single `validate` call runs under. -/
structure MLEnv where
  /-- `self.ml_enabled`: the ONNX session loaded successfully at startup. -/
  mlEnabled : Bool
  /-- the 5 s timeout of `file.read()` fired. -/
  readTimeout : Bool
  /-- the 2 s `asyncio.wait_for` around `_ml_analysis` fired. -/
  mlTimeout : Bool
  /-- soft-maxed classifier probabilities; `none` = exception inside the
      `try` block of `_ml_analysis`. -/
  inference : Option (List ℚ)
deriving Repr, DecidableEq

/-- Exceptions that reach `validate`'s `except` clauses. -/
inductive PyErr where
  | timeoutErr
  | unidentifiedImage
  | zeroDivision
deriving Repr, DecidableEq

/-- Result of a validation run: the boolean `validate` returns plus flags
    recording which stages executed. -/
structure Outcome where
  accepted : Bool
  aspectChecked : Bool
  colorChecked : Bool
  textChecked : Bool
  mlInvoked : Bool
deriving Repr, DecidableEq

/-- The outcome every caught exception resolves to: rejected, no stage ran. -/
def rejectedOutcome : Outcome := ⟨false, false, false, false, false⟩

/-- Kernel-computable product of two rationals (see `ratMul_eq`). -/
def ratMul (a b : ℚ) : ℚ := mkRat (a.num * b.num) (a.den * b.den)

/-- Kernel-computable difference of two rationals (see `ratSub_eq`). -/
def ratSub (a b : ℚ) : ℚ := mkRat (a.num * b.den - b.num * a.den) (a.den * b.den)

/-- Kernel-computable absolute value of a rational (see `ratAbs_eq`). -/
def ratAbs (q : ℚ) : ℚ := mkRat q.num.natAbs q.den

/-- `w / h` as the validator computes it (callers rule out `h = 0`, which
    raises `ZeroDivisionError` in the source). -/
def aspectOf (img : Img) : ℚ := mkRat img.width img.height

/-- `self.document_config[doc_type]` aspect bounds. -/
structure DocConfig where
  min_aspect : ℚ
  max_aspect : ℚ
deriving Repr, DecidableEq

/-- cnic: 1.4 – 1.7. -/
def cnicConfig : DocConfig := ⟨mkRat 7 5, mkRat 17 10⟩

/-- license: 1.2 – 2.0. -/
def licenseConfig : DocConfig := ⟨mkRat 6 5, 2⟩

/-- `self.PERSON_CLASSES`: ImageNet index ↦ (label, minimum confidence). -/
def personClasses : List (Nat × String × ℚ) :=
  [ (0, "person", mkRat 3 10), (1, "face", mkRat 2 5), (2, "portrait", mkRat 3 10),
    (3, "head", mkRat 3 10), (4, "human", mkRat 3 10),
    (151, "chihuahua", mkRat 1 10), (152, "japanese_spaniel", mkRat 1 10),
    (153, "maltese_dog", mkRat 1 10), (154, "pekinese", mkRat 1 10),
    (155, "shih-tzu", mkRat 1 10), (156, "blenheim_spaniel", mkRat 1 10),
    (157, "papillon", mkRat 1 10), (158, "toy_terrier", mkRat 1 10),
    (159, "rhodesian_ridgeback", mkRat 1 10), (160, "afghan_hound", mkRat 1 10),
    (218, "standard_poodle", mkRat 1 10), (219, "miniature_poodle", mkRat 1 10),
    (220, "toy_poodle", mkRat 1 10), (221, "mexican_hairless", mkRat 1 10),
    (243, "maillot", mkRat 3 10), (244, "sweatshirt", mkRat 3 10),
    (245, "jersey", mkRat 3 10), (246, "academic_gown", mkRat 3 10),
    (247, "poncho", mkRat 3 10), (248, "bulletproof_vest", mkRat 3 10),
    (249, "red_wine", mkRat 1 10), (278, "sunglasses", mkRat 2 5) ]

/-- `self.VEHICLE_CLASSES`: ImageNet index ↦ (label, minimum confidence). -/
def vehicleClasses : List (Nat × String × ℚ) :=
  [ (656, "car", mkRat 2 5), (817, "car", mkRat 1 2), (511, "car", mkRat 2 5),
    (705, "car", mkRat 2 5), (627, "car", mkRat 1 2), (436, "car", mkRat 3 10),
    (444, "bike", mkRat 3 5), (557, "bike", mkRat 7 10),
    (864, "truck", mkRat 1 2), (569, "truck", mkRat 2 5), (573, "truck", mkRat 2 5),
    (654, "van", mkRat 2 5), (757, "suv", mkRat 2 5),
    (779, "bus", mkRat 1 2), (450, "bus", mkRat 1 2) ]

/-! Regex machinery for the two patterns of `document_config['cnic']`,
specialised to the constructs those patterns use.  `\d` is modelled as an
ASCII decimal digit (the only digits the mock text contains are ASCII). -/

/-- Consume exactly `n` decimal digits; return the remaining characters. -/
def takeDigits : Nat → List Char → Option (List Char)
  | 0, cs => some cs
  | _ + 1, [] => none
  | n + 1, c :: cs => if c.isDigit then takeDigits n cs else none

/-- Does `\d{5}-\d{7}-\d{1}` match at the head of the character list? -/
def idPatternAt (cs : List Char) : Bool :=
  match takeDigits 5 cs with
  | some ('-' :: cs1) =>
      match takeDigits 7 cs1 with
      | some ('-' :: cs2) => (takeDigits 1 cs2).isSome
      | _ => false
  | _ => false

/-- Consume an exact literal character sequence. -/
def consumeLit : List Char → List Char → Option (List Char)
  | [], cs => some cs
  | _ :: _, [] => none
  | p :: ps, c :: cs => if c = p then consumeLit ps cs else none

def monthNames : List String :=
  [ "January", "February", "March", "April", "May", "June", "July",
    "August", "September", "October", "November", "December" ]

/-- After a month name: `\s\d{1,2},\s\d{4}` (greedy `\d{1,2}` with the
    backtracking a trailing `,` forces). -/
def dateTailAt (cs : List Char) : Bool :=
  match cs with
  | [] => false
  | c :: cs1 =>
      c.isWhitespace &&
        (match
          (match takeDigits 2 cs1 with
           | some (',' :: r) => some r
           | _ =>
             match takeDigits 1 cs1 with
             | some (',' :: r) => some r
             | _ => none) with
         | some (d :: r2) => d.isWhitespace && (takeDigits 4 r2).isSome
         | _ => false)

/-- Does `(January|…|December)\s\d{1,2},\s\d{4}` match at the head? -/
def datePatternAt (cs : List Char) : Bool :=
  monthNames.any fun m =>
    match consumeLit m.data cs with
    | some rest => dateTailAt rest
    | none => false

/-- `re.search`: try the pattern at every position of the string. -/
def regexSearch (p : List Char → Bool) : List Char → Bool
  | [] => p []
  | c :: cs => p (c :: cs) || regexSearch p cs

/-- The hard-coded mock OCR text of `_simulate_text_check`. -/
def mockText : String := "Dawn\nالوظيفة للسكان\nالأغاثة لها\n32103-9963008-2"

/-- `_simulate_text_check`: both patterns must be found in the mock text
    (the image argument is never consulted). -/
def simulateTextCheck : Bool :=
  regexSearch idPatternAt mockText.data && regexSearch datePatternAt mockText.data

/-- `_validate_document` for `doc_type ∈ {cnic, license}`. -/
def validateDocument (img : Img) (docType : String) : Except PyErr Outcome :=
  let config := if docType = "cnic" then cnicConfig else licenseConfig
  if img.height = 0 then .error .zeroDivision else
  if ¬ (config.min_aspect ≤ aspectOf img ∧ aspectOf img ≤ config.max_aspect) then
    .ok ⟨false, true, false, false, false⟩
  else if docType = "cnic" then
    if ¬ (img.meanR > 200 ∧ img.meanG > 180) then
      .ok ⟨false, true, true, false, false⟩
    else if ¬ simulateTextCheck then
      .ok ⟨false, true, true, true, false⟩
    else
      .ok ⟨true, true, true, true, false⟩
  else
    .ok ⟨true, true, false, false, false⟩

/-- `_is_likely_vehicle`: mean-colour heuristic; `abs(r-g) < 30` and
    `abs(g-b) < 30` is grayscale, `r > g*1.5 ∧ r > b*1.5` red,
    `b > r*1.2 ∧ b > g*1.2` blue, `g > r*1.2 ∧ g > b*1.2` green. -/
def isLikelyVehicle (img : Img) : Bool :=
  decide ((ratAbs (ratSub img.meanR img.meanG) < 30 ∧
           ratAbs (ratSub img.meanG img.meanB) < 30) ∨
          (img.meanR > ratMul img.meanG (mkRat 3 2) ∧
           img.meanR > ratMul img.meanB (mkRat 3 2)) ∨
          (img.meanB > ratMul img.meanR (mkRat 6 5) ∧
           img.meanB > ratMul img.meanG (mkRat 6 5)) ∨
          (img.meanG > ratMul img.meanR (mkRat 6 5) ∧
           img.meanG > ratMul img.meanB (mkRat 6 5)))

/-- The HSV skin band of `_is_likely_person`. -/
def skinPixel : Nat × Nat × Nat → Bool
  | (h, s, v) =>
      decide (0 < h) && decide (h < 35) && decide (20 < s) && decide (s < 255) &&
      decide (40 < v) && decide (v < 255)

/-- `np.mean(skin_mask)` over the 100×100 downsample (0 on an empty pixel
    list, where NumPy would give NaN — both compare false against 0.15). -/
def skinFraction (img : Img) : ℚ :=
  mkRat (img.hsvPixels.filter skinPixel).length img.hsvPixels.length

/-- `_is_likely_person`: skin-tone coverage strictly above 15 %. -/
def isLikelyPerson (img : Img) : Bool :=
  decide (skinFraction img > mkRat 3 20)

/-- The detection loops of `_ml_analysis`: some mapped class index inside the
    probability vector with probability strictly above its threshold. -/
def anyDetected (classes : List (Nat × String × ℚ)) (probs : List ℚ) : Bool :=
  classes.any fun e => decide (e.1 < probs.length) && decide (probs.getD e.1 0 > e.2.2)

/-- `_ml_analysis` given the (external) inference result; `none` is an
    exception inside its `try`, caught there and turned into `False`. -/
def mlAnalysis (probs? : Option (List ℚ)) (img : Img) (expectedType : String) : Bool :=
  match probs? with
  | none => false
  | some probs =>
      if expectedType = "user" then
        if anyDetected personClasses probs then true else isLikelyPerson img
      else if expectedType = "vehicle" then
        anyDetected vehicleClasses probs
      else false

/-- `_validate_general`: category heuristics, then the ML stage when enabled
    (with the user-permissive handler for its 2 s timeout). -/
def validateGeneral (img : Img) (expectedType : String) (env : MLEnv) :
    Except PyErr Outcome :=
  if img.height = 0 then .error .zeroDivision else
  if expectedType = "vehicle" ∧
      ¬ (mkRat 6 5 ≤ aspectOf img ∧ aspectOf img ≤ 3) then
    .ok ⟨false, true, false, false, false⟩
  else if expectedType = "vehicle" ∧ ¬ isLikelyVehicle img then
    .ok ⟨false, true, true, false, false⟩
  else if expectedType = "user" ∧
      ¬ (mkRat 7 10 ≤ aspectOf img ∧ aspectOf img ≤ mkRat 3 2) then
    .ok ⟨false, true, false, false, false⟩
  else
    if env.mlEnabled then
      if env.mlTimeout then
        .ok ⟨decide (expectedType = "user"),
             decide (expectedType = "vehicle") || decide (expectedType = "user"),
             decide (expectedType = "vehicle"), false, true⟩
      else
        .ok ⟨mlAnalysis env.inference img expectedType,
             decide (expectedType = "vehicle") || decide (expectedType = "user"),
             decide (expectedType = "vehicle"), false, true⟩
    else
      .ok ⟨true,
           decide (expectedType = "vehicle") || decide (expectedType = "user"),
           decide (expectedType = "vehicle"), false, false⟩

/-- `img.format not in ('JPEG', 'PNG')` check of `validate`. -/
def formatOk (img : Img) : Bool :=
  decide (img.format = "JPEG") || decide (img.format = "PNG")

/-- The `try` body of `validate`: read (may time out), decode (may fail),
    format check, then the document or general path. -/
def validateBody (decoded : Option Img) (env : MLEnv) (expectedType : String) :
    Except PyErr Outcome :=
  if env.readTimeout then .error .timeoutErr else
  match decoded with
  | none => .error .unidentifiedImage
  | some img =>
      if ¬ formatOk img then .ok rejectedOutcome
      else if expectedType = "cnic" ∨ expectedType = "license" then
        validateDocument img expectedType
      else
        validateGeneral img expectedType env

/-- `validate`: every exception of the body is caught and resolves to a
    rejection with no stage recorded. -/
def validate (decoded : Option Img) (env : MLEnv) (expectedType : String) : Outcome :=
  match validateBody decoded env expectedType with
  | .ok o => o
  | .error _ => rejectedOutcome

/-! The `UploadFile` handle: `validate` first calls `file.read()` (which
consumes from the current position) and then `file.seek(0)`.  The byte
content is abstract; a decoding function `List Nat → Option Img` stands for
`Image.open` on the bytes that were actually read. -/

/-- An upload-file handle: its byte content and current read position. -/
structure FileState where
  bytes : List Nat
  pos : Nat
deriving Repr, DecidableEq

/-- `file.read()`: returns the bytes from the current position and leaves
    the position at the end of the stream. -/
def fileRead (f : FileState) : List Nat × FileState :=
  (f.bytes.drop f.pos, { f with pos := f.bytes.length })

/-- `file.seek(0)`. -/
def fileSeek0 (f : FileState) : FileState := { f with pos := 0 }

/-- `validate` acting on the file handle: read, seek to 0, then the pure
    pipeline; on a read timeout the handle is left as it was. -/
def validateFile (dec : List Nat → Option Img) (f : FileState) (env : MLEnv)
    (expectedType : String) : Outcome × FileState :=
  if env.readTimeout then (rejectedOutcome, f)
  else
    let r := fileRead f
    let f2 := fileSeek0 r.2
    (validate (dec r.1) env expectedType, f2)

/-- The per-category message of `upload_image`'s `error_msg` dictionary. -/
def uploadErrorMsg (expectedType : String) : String :=
  if expectedType = "cnic" then
    "Invalid CNIC image. Ensure the entire card is visible with clear text."
  else if expectedType = "license" then
    "Invalid license image. Please provide a clear photo of the full document."
  else if expectedType = "vehicle" then
    "Image doesn't appear to be a vehicle. Please provide a clear photo of the vehicle."
  else if expectedType = "user" then
    "Image doesn't appear to be a person. Please provide a clear portrait."
  else "Image validation failed"

/-- The validation gate of `upload_image`: the `HTTPException (400, msg)` it
    raises when `validate` rejects, `none` when the image passes on to the
    Cloudinary upload. -/
def uploadGate (decoded : Option Img) (env : MLEnv) (expectedType : String) :
    Option (Nat × String) :=
  if (validate decoded env expectedType).accepted then none
  else some (400, uploadErrorMsg expectedType)

/-- The heuristic (pre-ML) stage of `_validate_general`, as a predicate:
    what has to hold for control to reach the ML stage. -/
def heurPass (img : Img) (t : String) : Bool :=
  if t = "vehicle" then
    decide (mkRat 6 5 ≤ aspectOf img ∧ aspectOf img ≤ 3) && isLikelyVehicle img
  else if t = "user" then
    decide (mkRat 7 10 ≤ aspectOf img ∧ aspectOf img ≤ mkRat 3 2)
  else true

/-! Concrete inputs used by counterexamples and witnesses. -/

def envOff : MLEnv := ⟨false, false, false, none⟩

def envExc : MLEnv := ⟨true, false, false, none⟩

def envMLTimeout : MLEnv := ⟨true, false, true, none⟩

def envProbEq : MLEnv := ⟨true, false, false, some [mkRat 3 10]⟩

def envProbAbove : MLEnv := ⟨true, false, false, some [mkRat 31 100]⟩

def envProbHalf : MLEnv := ⟨true, false, false, some [mkRat 1 2]⟩

def envProbOne : MLEnv := ⟨true, false, false, some [1]⟩

def envProbEmpty : MLEnv := ⟨true, false, false, some []⟩

/-- 100×100 PNG portrait whose downsample is entirely skin-toned. -/
def imgPortraitSkin : Img := ⟨"PNG", 100, 100, 0, 0, 0, [(10, 100, 100)]⟩

/-- 100×100 PNG with no skin-toned pixels at all. -/
def imgPortraitNoSkin : Img := ⟨"PNG", 100, 100, 0, 0, 0, [(0, 0, 0)]⟩

/-- The spec's red-sedan scenario: 1600×1000 PNG, red-majority mean. -/
def imgRedSedan : Img := ⟨"PNG", 1600, 1000, 150, 80, 80, []⟩

/-- 1600×1000 PNG whose mean (100,125,150) has adjacent channel gaps of 25
    but a red–blue gap of 50, and no dominant channel. -/
def imgChainGray : Img := ⟨"PNG", 1600, 1000, 100, 125, 150, []⟩

/-- Square red image: fails the vehicle aspect band. -/
def imgSquareCar : Img := ⟨"PNG", 100, 100, 150, 80, 80, []⟩

/-- Decodes fine but in a format outside {JPEG, PNG}. -/
def imgGif : Img := ⟨"GIF", 100, 100, 0, 0, 0, []⟩

/-- 150×100 PNG: aspect 1.5, inside the license band [1.2, 2.0]. -/
def imgLicenseCard : Img := ⟨"PNG", 150, 100, 0, 0, 0, []⟩

/-- Plain 100×100 PNG. -/
def imgPlain : Img := ⟨"PNG", 100, 100, 0, 0, 0, []⟩

/-- Decoder that always fails, for the file-level witness. -/
def decNone : List Nat → Option Img := fun _ => none

/-! Bridging lemmas between the kernel-computable arithmetic and the
ordinary field operations on `ℚ`. -/

theorem mkRat_div (n : Int) (d : Nat) : (mkRat n d : ℚ) = (n : ℚ) / (d : ℚ) := by
  rw [Rat.mkRat_eq_divInt, Rat.divInt_eq_div]
  norm_num

theorem ratMul_eq (a b : ℚ) : ratMul a b = a * b := by
  have ha : ((a.den : ℚ)) ≠ 0 := Nat.cast_ne_zero.mpr a.den_nz
  have hb : ((b.den : ℚ)) ≠ 0 := Nat.cast_ne_zero.mpr b.den_nz
  rw [ratMul, mkRat_div]
  push_cast
  conv_rhs => rw [← Rat.num_div_den a, ← Rat.num_div_den b]
  field_simp

theorem ratSub_eq (a b : ℚ) : ratSub a b = a - b := by
  have ha : ((a.den : ℚ)) ≠ 0 := Nat.cast_ne_zero.mpr a.den_nz
  have hb : ((b.den : ℚ)) ≠ 0 := Nat.cast_ne_zero.mpr b.den_nz
  rw [ratSub, mkRat_div]
  push_cast
  conv_rhs => rw [← Rat.num_div_den a, ← Rat.num_div_den b]
  rw [div_sub_div _ _ ha hb]
  ring_nf

theorem ratAbs_eq (q : ℚ) : ratAbs q = |q| := by
  rw [ratAbs, mkRat_div]
  push_cast
  conv_rhs => rw [← Rat.num_div_den q]
  rw [abs_div]
  congr 1
  exact (abs_of_nonneg (by positivity)).symm

/-- The validator's aspect value is the ordinary quotient `w / h`. -/
theorem aspectOf_div (img : Img) :
    aspectOf img = (img.width : ℚ) / (img.height : ℚ) := by
  rw [aspectOf, mkRat_div]
  norm_num

/-- The skin coverage is the ordinary quotient of the mask count by the
    pixel count. -/
theorem skinFraction_div (img : Img) :
    skinFraction img =
      ((img.hsvPixels.filter skinPixel).length : ℚ) / (img.hsvPixels.length : ℚ) := by
  rw [skinFraction, mkRat_div]
  norm_num

/-- `_is_likely_vehicle` spelled out with the ordinary field operations:
    adjacent-gap grayscale, or a 1.5× dominant red, or a 1.2× dominant blue
    or green channel. -/
theorem isLikelyVehicle_iff (img : Img) :
    isLikelyVehicle img = true ↔
      ((|img.meanR - img.meanG| < 30 ∧ |img.meanG - img.meanB| < 30) ∨
       (img.meanR > img.meanG * (3/2) ∧ img.meanR > img.meanB * (3/2)) ∨
       (img.meanB > img.meanR * (6/5) ∧ img.meanB > img.meanG * (6/5)) ∨
       (img.meanG > img.meanR * (6/5) ∧ img.meanG > img.meanB * (6/5))) := by
  have h32 : (mkRat 3 2 : ℚ) = 3/2 := by rw [mkRat_div]; norm_num
  have h65 : (mkRat 6 5 : ℚ) = 6/5 := by rw [mkRat_div]; norm_num
  simp [isLikelyVehicle, ratAbs_eq, ratSub_eq, ratMul_eq, h32, h65]

/-! Helper lemmas about the pipeline's plumbing. -/

theorem simulateTextCheck_eq_false : simulateTextCheck = false := by decide

theorem validate_ok {d : Option Img} {env : MLEnv} {t : String} {o : Outcome}
    (h : validateBody d env t = .ok o) : validate d env t = o := by
  simp [validate, h]

theorem validate_err {d : Option Img} {env : MLEnv} {t : String} {e : PyErr}
    (h : validateBody d env t = .error e) : validate d env t = rejectedOutcome := by
  simp [validate, h]

theorem validateBody_general (img : Img) (env : MLEnv) (t : String)
    (hrt : env.readTimeout = false) (hf : formatOk img = true)
    (h1 : t ≠ "cnic") (h2 : t ≠ "license") :
    validateBody (some img) env t = validateGeneral img t env := by
  simp [validateBody, hrt, hf, h1, h2]

theorem validateBody_doc (img : Img) (env : MLEnv) (t : String)
    (hrt : env.readTimeout = false) (hf : formatOk img = true)
    (h : t = "cnic" ∨ t = "license") :
    validateBody (some img) env t = validateDocument img t := by
  simp [validateBody, hrt, hf]
  intro hc
  rcases h with h | h <;> simp [h] at hc ⊢

/-- Once the heuristics of `_validate_general` pass and ML is enabled, the
    outcome is decided by the timeout flag and `_ml_analysis`. -/
theorem validateGeneral_heurPass_ml (img : Img) (env : MLEnv) (t : String)
    (h0 : img.height ≠ 0) (hp : heurPass img t = true) (hml : env.mlEnabled = true) :
    validateGeneral img t env =
      if env.mlTimeout then
        .ok ⟨decide (t = "user"),
             decide (t = "vehicle") || decide (t = "user"),
             decide (t = "vehicle"), false, true⟩
      else
        .ok ⟨mlAnalysis env.inference img t,
             decide (t = "vehicle") || decide (t = "user"),
             decide (t = "vehicle"), false, true⟩ := by
  unfold validateGeneral
  rw [if_neg h0]
  by_cases hv : t = "vehicle"
  · subst hv
    have hp' : (mkRat 6 5 ≤ aspectOf img ∧ aspectOf img ≤ 3) ∧
        isLikelyVehicle img = true := by
      simpa [heurPass] using hp
    rw [if_neg (fun hc => hc.2 hp'.1), if_neg (fun hc => hc.2 hp'.2),
        if_neg (fun hc => absurd hc.1 (by decide)), if_pos hml]
  · by_cases hu : t = "user"
    · subst hu
      have hp' : mkRat 7 10 ≤ aspectOf img ∧ aspectOf img ≤ mkRat 3 2 := by
        simpa [heurPass] using hp
      rw [if_neg (fun hc => absurd hc.1 (by decide)),
          if_neg (fun hc => absurd hc.1 (by decide)),
          if_neg (fun hc => hc.2 hp'), if_pos hml]
    · rw [if_neg (fun hc => hv hc.1), if_neg (fun hc => hv hc.1),
          if_neg (fun hc => hu hc.1), if_pos hml]

/-- `_ml_analysis` returns `False` for every category without a class
    mapping, whether or not inference succeeded. -/
theorem mlAnalysis_other {probs? : Option (List ℚ)} {img : Img} {t : String}
    (hu : t ≠ "user") (hv : t ≠ "vehicle") : mlAnalysis probs? img t = false := by
  cases probs? <;> simp [mlAnalysis, hu, hv]

/-- `_validate_general` on a category with no special heuristics. -/
theorem validateGeneral_other (img : Img) (env : MLEnv) (t : String)
    (h0 : img.height ≠ 0) (hv : t ≠ "vehicle") (hu : t ≠ "user") :
    validateGeneral img t env =
      if env.mlEnabled then
        if env.mlTimeout then .ok ⟨false, false, false, false, true⟩
        else .ok ⟨mlAnalysis env.inference img t, false, false, false, true⟩
      else .ok ⟨true, false, false, false, false⟩ := by
  unfold validateGeneral
  rw [if_neg h0, if_neg (fun hc => hv hc.1), if_neg (fun hc => hv hc.1),
      if_neg (fun hc => hu hc.1)]
  simp [decide_eq_false hv, decide_eq_false hu]

/-- `_validate_general` for vehicles with the ML stage disabled. -/
theorem validateGeneral_vehicle_off (img : Img) (env : MLEnv)
    (h0 : img.height ≠ 0) (hml : env.mlEnabled = false) :
    validateGeneral img "vehicle" env =
      if mkRat 6 5 ≤ aspectOf img ∧ aspectOf img ≤ 3 then
        if isLikelyVehicle img then .ok ⟨true, true, true, false, false⟩
        else .ok ⟨false, true, true, false, false⟩
      else .ok ⟨false, true, false, false, false⟩ := by
  unfold validateGeneral
  rw [if_neg h0]
  by_cases ha : mkRat 6 5 ≤ aspectOf img ∧ aspectOf img ≤ 3
  · rw [if_neg (fun hc => hc.2 ha)]
    by_cases hl : isLikelyVehicle img = true
    · rw [if_neg (fun hc => hc.2 hl), if_neg (fun hc => absurd hc.1 (by decide)),
          if_neg (by simp [hml]), if_pos ha, if_pos hl]
      simp
    · rw [if_pos ⟨rfl, hl⟩, if_pos ha, if_neg hl]
  · rw [if_pos ⟨rfl, ha⟩, if_neg ha]

/-- Under an inference exception (no timeout), every successful run of
    `_validate_general` rejects, whatever the category. -/
theorem validateGeneral_exc {img : Img} {env : MLEnv} {t : String} {o : Outcome}
    (hml : env.mlEnabled = true) (hto : env.mlTimeout = false)
    (hinf : env.inference = none) :
    validateGeneral img t env = .ok o → o.accepted = false := by
  intro h
  unfold validateGeneral at h
  rw [hml, hto, hinf] at h
  split_ifs at h <;> first | (cases h; rfl) | simp_all [mlAnalysis]

/-- `_validate_document` on a license checks the aspect band only. -/
theorem validateDocument_license (img : Img) (h0 : img.height ≠ 0) :
    validateDocument img "license" =
      if mkRat 6 5 ≤ aspectOf img ∧ aspectOf img ≤ 2 then
        .ok ⟨true, true, false, false, false⟩
      else .ok ⟨false, true, false, false, false⟩ := by
  simp only [validateDocument, if_neg (by decide : ¬("license" : String) = "cnic")]
  rw [if_neg h0]
  by_cases ha : licenseConfig.min_aspect ≤ aspectOf img ∧
      aspectOf img ≤ licenseConfig.max_aspect
  · rw [if_neg (not_not_intro ha), if_pos (show mkRat 6 5 ≤ aspectOf img ∧
      aspectOf img ≤ 2 from ha)]
  · rw [if_pos ha, if_neg (show ¬(mkRat 6 5 ≤ aspectOf img ∧
      aspectOf img ≤ 2) from ha)]

/-- Every successful `_validate_document` run on a CNIC rejects: the
    simulated text check is constantly false. -/
theorem validateDocument_cnic_rejected {img : Img} {o : Outcome}
    (h : validateDocument img "cnic" = .ok o) : o.accepted = false := by
  simp only [validateDocument, if_pos rfl] at h
  split_ifs at h <;> first | (cases h; rfl) | simp_all [simulateTextCheck_eq_false]

/-- With a single-entry probability vector, the person-detection loop fires
    exactly when that probability strictly exceeds the class-0 threshold. -/
theorem anyDetected_single (p : ℚ) :
    anyDetected personClasses [p] = decide (p > mkRat 3 10) := by
  simp [anyDetected, personClasses]

/-! Claim theorems. -/

/-- C1 counterexample: with ML enabled and an exception (not a timeout)
    raised during inference, a portrait whose heuristics passed — and whose
    skin-tone coverage is even above the fallback threshold — is rejected,
    whereas the claim demands acceptance for declared category `user`. -/
theorem C1_counterexample :
    envExc.mlEnabled = true ∧ envExc.mlTimeout = false ∧
    envExc.inference = none ∧
    formatOk imgPortraitSkin = true ∧ heurPass imgPortraitSkin "user" = true ∧
    skinFraction imgPortraitSkin > mkRat 3 20 ∧
    (validate (some imgPortraitSkin) envExc "user").accepted = false := by
  decide

/-- C1 (amended): once the heuristic stages pass and ML is enabled, a
    timeout of the ML stage is caught in `_validate_general` and resolves to
    acceptance exactly for category `user` (rejection for every other
    category), while an exception inside `_ml_analysis` is caught by
    `_ml_analysis` itself, which returns `False`, so the image is rejected
    for every category, `user` included. -/
theorem C1_ml_failure_outcomes :
    ∀ (img : Img) (env : MLEnv) (t : String),
      env.mlEnabled = true → env.readTimeout = false →
      t ≠ "cnic" → t ≠ "license" →
      img.height ≠ 0 → formatOk img = true → heurPass img t = true →
      ((env.mlTimeout = true →
          (validate (some img) env t).accepted = decide (t = "user")) ∧
       (env.mlTimeout = false → env.inference = none →
          (validate (some img) env t).accepted = false)) := by
  intro img env t hml hrt h1 h2 h0 hf hp
  have hb := validateBody_general img env t hrt hf h1 h2
  have hg := validateGeneral_heurPass_ml img env _ h0 hp hml
  constructor
  · intro hto
    rw [validate_ok (o := ⟨decide (t = "user"),
          decide (t = "vehicle") || decide (t = "user"),
          decide (t = "vehicle"), false, true⟩) (by rw [hb, hg, if_pos hto])]
  · intro hto hinf
    rw [validate_ok (o := ⟨mlAnalysis env.inference img t,
          decide (t = "vehicle") || decide (t = "user"),
          decide (t = "vehicle"), false, true⟩)
        (by rw [hb, hg, if_neg (by simp [hto])])]
    show mlAnalysis env.inference img t = false
    rw [hinf]
    rfl

/-- C1 witness: a concrete ML-stage timeout for category `user` resolves to
    acceptance on the already-passed heuristics. -/
theorem C1_witness :
    (validate (some imgPortraitSkin) envMLTimeout "user").accepted = true := by
  have h := (C1_ml_failure_outcomes imgPortraitSkin envMLTimeout "user"
      rfl rfl (by decide) (by decide) (by decide) (by decide) (by decide)).1 rfl
  simpa using h

/-- C2: `_simulate_text_check` searches a fixed hard-coded mock string which
    matches the national-ID-number pattern but contains no date-pattern
    token, so the conjunction is constantly false and `validate` rejects
    every CNIC submission, whatever the image bytes. -/
theorem C2_cnic_always_rejected :
    regexSearch idPatternAt mockText.data = true ∧
    regexSearch datePatternAt mockText.data = false ∧
    ∀ (d : Option Img) (env : MLEnv), (validate d env "cnic").accepted = false := by
  refine ⟨by decide, by decide, ?_⟩
  intro d env
  by_cases hrt : env.readTimeout = true
  · rw [validate_err (e := .timeoutErr) (by simp [validateBody, hrt])]
    rfl
  · have hrt' : env.readTimeout = false := by simpa using hrt
    cases d with
    | none =>
        rw [validate_err (e := .unidentifiedImage) (by simp [validateBody, hrt'])]
        rfl
    | some img =>
        by_cases hf : formatOk img = true
        · have hb := validateBody_doc img env "cnic" hrt' hf (Or.inl rfl)
          rcases hdoc : validateDocument img "cnic" with e | o
          · rw [validate_err (hb.trans hdoc)]; rfl
          · rw [validate_ok (hb.trans hdoc)]
            exact validateDocument_cnic_rejected hdoc
        · rw [validate_ok (o := rejectedOutcome) (by simp [validateBody, hrt', hf])]
          rfl

/-- C3 counterexample: with a probability vector whose only mapped-class
    confidence sits exactly at the class-0 threshold 0.3, the portrait is
    rejected (the bound is exclusive), while one just above it is accepted —
    the claim asserts the exact-threshold image is accepted. -/
theorem C3_counterexample :
    (0, "person", mkRat 3 10) ∈ personClasses ∧
    envProbEq.inference = some [mkRat 3 10] ∧
    (validate (some imgPortraitNoSkin) envProbEq "user").accepted = false ∧
    envProbAbove.inference = some [mkRat 31 100] ∧
    (validate (some imgPortraitNoSkin) envProbAbove "user").accepted = true := by
  decide

/-- C3 (amended): the confidence bound of the detection loops is exclusive:
    with a single mapped-class probability `p` (class 0, threshold 0.3) and
    a failing skin fallback, the portrait is accepted iff `p` is strictly
    greater than the threshold; exact equality is rejected. -/
theorem C3_threshold_strict :
    ∀ (p : ℚ) (img : Img) (env : MLEnv),
      env.mlEnabled = true → env.readTimeout = false → env.mlTimeout = false →
      env.inference = some [p] →
      formatOk img = true → img.height ≠ 0 →
      heurPass img "user" = true → skinFraction img ≤ mkRat 3 20 →
      (validate (some img) env "user").accepted = decide (p > mkRat 3 10) := by
  intro p img env hml hrt hto hinf hf h0 hp hskin
  have hb := validateBody_general img env "user" hrt hf (by decide) (by decide)
  have hg := validateGeneral_heurPass_ml img env _ h0 hp hml
  rw [validate_ok (o := ⟨mlAnalysis env.inference img "user",
        decide (("user" : String) = "vehicle") || decide (("user" : String) = "user"),
        decide (("user" : String) = "vehicle"), false, true⟩)
      (by rw [hb, hg, if_neg (by simp [hto])])]
  show mlAnalysis env.inference img "user" = decide (p > mkRat 3 10)
  rw [hinf]
  simp only [mlAnalysis, if_true]
  rw [anyDetected_single]
  by_cases hpd : p > mkRat 3 10
  · simp [hpd]
  · simp [hpd, isLikelyPerson, not_lt.mpr hskin]

/-- C3 witness: probability 0.5 on class 0 (strictly above 0.3) accepts. -/
theorem C3_witness :
    (validate (some imgPortraitNoSkin) envProbHalf "user").accepted = true := by
  have h := C3_threshold_strict (mkRat 1 2) imgPortraitNoSkin envProbHalf rfl rfl rfl
      rfl (by decide) (by decide) (by decide) (by decide)
  exact h.trans (by decide)

/-- C4 counterexample: the upload gateway raises the identical 400 error
    for a decode failure and for an aspect-ratio heuristic failure of the
    same category, so the rejection reason is category-specific, not
    decode-related (the claimed decode-related reason does not exist). -/
theorem C4_counterexample :
    uploadGate none envOff "vehicle" = uploadGate (some imgSquareCar) envOff "vehicle" ∧
    uploadGate none envOff "vehicle" =
      some (400,
        "Image doesn't appear to be a vehicle. Please provide a clear photo of the vehicle.") ∧
    (validate (some imgSquareCar) envOff "vehicle").aspectChecked = true ∧
    (validate none envOff "vehicle").aspectChecked = false := by
  decide

/-- C4 (amended): bytes that fail to decode, and decoded images whose format
    is outside {JPEG, PNG}, are rejected for every category with no
    heuristic, colour, text or ML stage executed; but `validate` returns a
    bare boolean, and the upload gateway's message is the same fixed
    per-category string for every validation-failure cause, so no
    decode-related reason is reported. -/
theorem C4_decode_rejects_no_stages :
    (∀ (env : MLEnv) (t : String), validate none env t = rejectedOutcome) ∧
    (∀ (img : Img) (env : MLEnv) (t : String), formatOk img = false →
       validate (some img) env t = rejectedOutcome) := by
  constructor
  · intro env t
    by_cases hrt : env.readTimeout = true
    · exact validate_err (e := .timeoutErr) (by simp [validateBody, hrt])
    · exact validate_err (e := .unidentifiedImage) (by simp [validateBody, hrt])
  · intro img env t hf
    by_cases hrt : env.readTimeout = true
    · exact validate_err (e := .timeoutErr) (by simp [validateBody, hrt])
    · exact validate_ok (by simp [validateBody, hrt, hf])

/-- C4 witness: a decodable GIF (format outside {JPEG, PNG}) is rejected
    with no stage executed. -/
theorem C4_witness : validate (some imgGif) envOff "vehicle" = rejectedOutcome :=
  C4_decode_rejects_no_stages.2 imgGif envOff "vehicle" (by decide)

/-- C5: for a portrait whose heuristics pass, when ML runs successfully but
    no mapped person class strictly clears its threshold, acceptance is
    exactly the skin-tone fallback: the skin-band pixel fraction of the
    downsample strictly exceeding 0.15 (= mkRat 3 20). -/
theorem C5_skin_fallback :
    ∀ (img : Img) (env : MLEnv) (probs : List ℚ),
      env.mlEnabled = true → env.readTimeout = false → env.mlTimeout = false →
      env.inference = some probs →
      formatOk img = true → img.height ≠ 0 →
      heurPass img "user" = true →
      anyDetected personClasses probs = false →
      ((validate (some img) env "user").accepted = true ↔
        skinFraction img > mkRat 3 20) := by
  intro img env probs hml hrt hto hinf hf h0 hp hnd
  have hb := validateBody_general img env "user" hrt hf (by decide) (by decide)
  have hg := validateGeneral_heurPass_ml img env _ h0 hp hml
  rw [validate_ok (o := ⟨mlAnalysis env.inference img "user",
        decide (("user" : String) = "vehicle") || decide (("user" : String) = "user"),
        decide (("user" : String) = "vehicle"), false, true⟩)
      (by rw [hb, hg, if_neg (by simp [hto])])]
  show mlAnalysis env.inference img "user" = true ↔ skinFraction img > mkRat 3 20
  rw [hinf]
  simp only [mlAnalysis, if_true]
  rw [hnd]
  simp [isLikelyPerson]

/-- C5 witness: an empty probability vector detects nothing, and a fully
    skin-toned downsample (fraction 1 > 0.15) is accepted. -/
theorem C5_witness :
    (validate (some imgPortraitSkin) envProbEmpty "user").accepted = true :=
  (C5_skin_fallback imgPortraitSkin envProbEmpty [] rfl rfl rfl rfl (by decide)
      (by decide) (by decide) (by decide)).mpr (by decide)

/-- C6 counterexample: mean colour (100, 125, 150) on a 1600×1000 PNG is
    accepted by the vehicle heuristics although the channels are not
    mutually within 30/255 of each other (the red–blue gap is 50) and no
    channel is dominant even at the laxest 1.2 ratio — the code only
    compares the two adjacent channel pairs. -/
theorem C6_counterexample :
    (validate (some imgChainGray) envOff "vehicle").accepted = true ∧
    ¬ (|imgChainGray.meanR - imgChainGray.meanB| < 30) ∧
    ¬ (imgChainGray.meanR > imgChainGray.meanG * (3/2) ∧
       imgChainGray.meanR > imgChainGray.meanB * (3/2)) ∧
    ¬ (imgChainGray.meanB > imgChainGray.meanR * (6/5) ∧
       imgChainGray.meanB > imgChainGray.meanG * (6/5)) ∧
    ¬ (imgChainGray.meanG > imgChainGray.meanR * (6/5) ∧
       imgChainGray.meanG > imgChainGray.meanB * (6/5)) := by
  refine ⟨by decide, by norm_num [imgChainGray], by norm_num [imgChainGray],
          by norm_num [imgChainGray], by norm_num [imgChainGray]⟩

/-- C6 (amended): with ML disabled, a valid JPEG/PNG vehicle image is
    accepted iff its aspect lies in [1.2, 3.0] and its mean colour passes
    the adjacent-pair near-grayscale test (`|r−g| < 30 ∧ |g−b| < 30`; the
    red–blue pair is not compared) or has a dominant red (1.5×) or blue or
    green (1.2×) channel; the ML stage is never invoked. -/
theorem C6_vehicle_ml_off :
    ∀ (img : Img) (env : MLEnv),
      env.mlEnabled = false → env.readTimeout = false →
      formatOk img = true → img.height ≠ 0 →
      (((validate (some img) env "vehicle").accepted = true ↔
         ((mkRat 6 5 ≤ aspectOf img ∧ aspectOf img ≤ 3) ∧
          ((|img.meanR - img.meanG| < 30 ∧ |img.meanG - img.meanB| < 30) ∨
           (img.meanR > img.meanG * (3/2) ∧ img.meanR > img.meanB * (3/2)) ∨
           (img.meanB > img.meanR * (6/5) ∧ img.meanB > img.meanG * (6/5)) ∨
           (img.meanG > img.meanR * (6/5) ∧ img.meanG > img.meanB * (6/5))))) ∧
       (validate (some img) env "vehicle").mlInvoked = false) := by
  intro img env hml hrt hf h0
  have hb := validateBody_general img env "vehicle" hrt hf (by decide) (by decide)
  have hg := validateGeneral_vehicle_off img env h0 hml
  by_cases ha : mkRat 6 5 ≤ aspectOf img ∧ aspectOf img ≤ 3
  · by_cases hl : isLikelyVehicle img = true
    · rw [validate_ok (o := ⟨true, true, true, false, false⟩)
          (by rw [hb, hg, if_pos ha, if_pos hl])]
      exact ⟨iff_of_true rfl ⟨ha, (isLikelyVehicle_iff img).mp hl⟩, rfl⟩
    · rw [validate_ok (o := ⟨false, true, true, false, false⟩)
          (by rw [hb, hg, if_pos ha, if_neg hl])]
      exact ⟨iff_of_false (by decide)
        (fun hc => hl ((isLikelyVehicle_iff img).mpr hc.2)), rfl⟩
  · rw [validate_ok (o := ⟨false, true, false, false, false⟩)
        (by rw [hb, hg, if_neg ha])]
    exact ⟨iff_of_false (by decide) (fun hc => ha hc.1), rfl⟩

/-- C6 witness: the 1600×1000 red sedan (mean (150,80,80), aspect 1.6) is
    accepted with the ML stage never invoked. -/
theorem C6_witness :
    (validate (some imgRedSedan) envOff "vehicle").accepted = true ∧
    (validate (some imgRedSedan) envOff "vehicle").mlInvoked = false := by
  have h := C6_vehicle_ml_off imgRedSedan envOff rfl rfl (by decide) (by decide)
  exact ⟨h.1.mpr ⟨by decide, by norm_num [imgRedSedan]⟩, h.2⟩

/-- C7 counterexample: a valid square PNG under the unrecognized tag
    `other`, with ML enabled and inference succeeding, is rejected — the
    claim says an unrecognized tag leads to acceptance. -/
theorem C7_counterexample :
    formatOk imgPlain = true ∧ envProbOne.mlEnabled = true ∧
    envProbOne.inference = some [1] ∧
    (validate (some imgPlain) envProbOne "other").accepted = false := by
  decide

/-- C7 (amended): an unrecognized category tag does not error: it routes
    through the general path with no heuristic check, the body raises no
    exception, and with ML disabled the image is accepted; but with ML
    enabled `_ml_analysis` has no class mapping for the tag and returns
    `False`, so the image is always rejected. -/
theorem C7_unknown_tag :
    ∀ (img : Img) (env : MLEnv) (t : String),
      t ≠ "cnic" → t ≠ "license" → t ≠ "vehicle" → t ≠ "user" →
      env.readTimeout = false → formatOk img = true → img.height ≠ 0 →
      (validateBody (some img) env t = .ok (validate (some img) env t) ∧
       (env.mlEnabled = false → (validate (some img) env t).accepted = true) ∧
       (env.mlEnabled = true → (validate (some img) env t).accepted = false)) := by
  intro img env t h1 h2 hv hu hrt hf h0
  have hb := validateBody_general img env t hrt hf h1 h2
  have hg := validateGeneral_other img env t h0 hv hu
  by_cases hml : env.mlEnabled = true
  · by_cases hto : env.mlTimeout = true
    · have hob : validateBody (some img) env t = .ok ⟨false, false, false, false, true⟩ := by
        rw [hb, hg, if_pos hml, if_pos hto]
      have hv1 := validate_ok hob
      refine ⟨?_, ?_, fun _ => ?_⟩
      · rw [hob, hv1]
      · intro hoff
        simp [hml] at hoff
      · rw [hv1]
    · have hob : validateBody (some img) env t =
          .ok ⟨mlAnalysis env.inference img t, false, false, false, true⟩ := by
        rw [hb, hg, if_pos hml, if_neg hto]
      have hv1 := validate_ok hob
      refine ⟨?_, ?_, fun _ => ?_⟩
      · rw [hob, hv1]
      · intro hoff
        simp [hml] at hoff
      · rw [hv1]
        show mlAnalysis env.inference img t = false
        exact mlAnalysis_other hu hv
  · have hml' : env.mlEnabled = false := by simpa using hml
    have hob : validateBody (some img) env t = .ok ⟨true, false, false, false, false⟩ := by
      rw [hb, hg, if_neg hml]
    have hv1 := validate_ok hob
    refine ⟨?_, fun _ => ?_, ?_⟩
    · rw [hob, hv1]
    · rw [hv1]
    · intro hon
      simp [hml'] at hon

/-- C7 witness: the same unrecognized tag is accepted with ML disabled and
    rejected with ML enabled and a successful inference. -/
theorem C7_witness :
    (validate (some imgPlain) envOff "other").accepted = true ∧
    (validate (some imgPlain) envProbOne "other").accepted = false := by
  have h1 := C7_unknown_tag imgPlain envOff "other" (by decide) (by decide) (by decide)
      (by decide) rfl (by decide) (by decide)
  have h2 := C7_unknown_tag imgPlain envProbOne "other" (by decide) (by decide)
      (by decide) (by decide) rfl (by decide) (by decide)
  exact ⟨h1.2.1 rfl, h2.2.2 rfl⟩

/-- C8 counterexample: an ML-stage timeout for category `user` with passing
    heuristics resolves to acceptance, not to the rejection the claim
    asserts for every stage timeout. -/
theorem C8_counterexample :
    envMLTimeout.mlEnabled = true ∧ envMLTimeout.mlTimeout = true ∧
    (validate (some imgPortraitSkin) envMLTimeout "user").accepted = true := by
  decide

/-- C8 (amended): `validate` is total — every exception of its body resolves
    to the rejected outcome, read timeouts and decode failures reject, and a
    classifier exception rejects for every general category; but an ML-stage
    timeout for category `user` with passing heuristics resolves to
    acceptance, so not every timeout yields `accepted = false`. -/
theorem C8_error_resolution :
    ∀ (d : Option Img) (img : Img) (env : MLEnv) (t : String) (e : PyErr),
      ((validateBody d env t = .error e → validate d env t = rejectedOutcome) ∧
       (env.readTimeout = true → (validate d env t).accepted = false) ∧
       ((validate none env t).accepted = false) ∧
       (env.mlEnabled = true → env.mlTimeout = false → env.inference = none →
          t ≠ "cnic" → t ≠ "license" →
          (validate (some img) env t).accepted = false) ∧
       (env.mlEnabled = true → env.mlTimeout = true → env.readTimeout = false →
          formatOk img = true → img.height ≠ 0 → heurPass img "user" = true →
          (validate (some img) env "user").accepted = true)) := by
  intro d img env t e
  refine ⟨fun h => validate_err h, ?_, ?_, ?_, ?_⟩
  · intro hrt
    rw [validate_err (e := .timeoutErr) (by simp [validateBody, hrt])]
    rfl
  · by_cases hrt : env.readTimeout = true
    · rw [validate_err (e := .timeoutErr) (by simp [validateBody, hrt])]; rfl
    · rw [validate_err (e := .unidentifiedImage) (by simp [validateBody, hrt])]; rfl
  · intro hml hto hinf h1 h2
    by_cases hrt : env.readTimeout = true
    · rw [validate_err (e := .timeoutErr) (by simp [validateBody, hrt])]; rfl
    · have hrt' : env.readTimeout = false := by simpa using hrt
      by_cases hf : formatOk img = true
      · have hb := validateBody_general img env t hrt' hf h1 h2
        rcases hgr : validateGeneral img t env with e' | o
        · rw [validate_err (hb.trans hgr)]; rfl
        · rw [validate_ok (hb.trans hgr)]
          exact validateGeneral_exc hml hto hinf hgr
      · have hf' : formatOk img = false := by simpa using hf
        rw [validate_ok (o := rejectedOutcome) (by simp [validateBody, hrt', hf'])]
        rfl
  · intro hml hto hrt hf h0 hp
    have hb := validateBody_general img env "user" hrt hf (by decide) (by decide)
    have hg := validateGeneral_heurPass_ml img env _ h0 hp hml
    rw [validate_ok (o := ⟨decide (("user" : String) = "user"),
          decide (("user" : String) = "vehicle") || decide (("user" : String) = "user"),
          decide (("user" : String) = "vehicle"), false, true⟩)
        (by rw [hb, hg, if_pos hto])]
    rfl

/-- C8 witness: a decode failure rejects; a user ML timeout accepts; a
    classifier exception rejects even for category `user`. -/
theorem C8_witness :
    (validate none envExc "vehicle").accepted = false ∧
    (validate (some imgPortraitSkin) envMLTimeout "user").accepted = true ∧
    (validate (some imgPortraitNoSkin) envExc "user").accepted = false := by
  refine ⟨(C8_error_resolution none imgPlain envExc "vehicle" PyErr.timeoutErr).2.2.1,
          ?_, ?_⟩
  · exact (C8_error_resolution (some imgPortraitSkin) imgPortraitSkin envMLTimeout
      "user" PyErr.timeoutErr).2.2.2.2 rfl rfl rfl (by decide) (by decide) (by decide)
  · exact (C8_error_resolution (some imgPortraitNoSkin) imgPortraitNoSkin envExc
      "user" PyErr.timeoutErr).2.2.2.1 rfl rfl rfl (by decide) (by decide)

/-- C9: starting from a freshly delivered handle (position 0), a second
    `validate` call on the same handle, same decoder, same environment and
    same category returns the same outcome: the first call re-seeks the
    stream to 0 and mutates nothing else. -/
theorem C9_idempotent :
    ∀ (dec : List Nat → Option Img) (f : FileState) (env : MLEnv) (t : String),
      f.pos = 0 →
      (validateFile dec (validateFile dec f env t).2 env t).1 =
        (validateFile dec f env t).1 := by
  intro dec f env t h
  by_cases hrt : env.readTimeout = true
  · simp [validateFile, hrt]
  · simp [validateFile, hrt, fileRead, fileSeek0, h]

/-- C9 witness: two runs on a concrete empty handle agree. -/
theorem C9_witness :
    (validateFile decNone (validateFile decNone ⟨[], 0⟩ envOff "user").2
        envOff "user").1 =
      (validateFile decNone ⟨[], 0⟩ envOff "user").1 :=
  C9_idempotent decNone ⟨[], 0⟩ envOff "user" rfl

/-- C10: for category `license` the validator checks only the aspect band
    [1.2, 2.0] (both bounds inclusive): a valid JPEG/PNG image is accepted
    iff its aspect lies in the band, and no colour, text-pattern or ML
    stage is ever executed. -/
theorem C10_license_aspect_only :
    ∀ (img : Img) (env : MLEnv),
      env.readTimeout = false → formatOk img = true → img.height ≠ 0 →
      (((validate (some img) env "license").accepted = true ↔
         (mkRat 6 5 ≤ aspectOf img ∧ aspectOf img ≤ 2)) ∧
       (validate (some img) env "license").colorChecked = false ∧
       (validate (some img) env "license").textChecked = false ∧
       (validate (some img) env "license").mlInvoked = false) := by
  intro img env hrt hf h0
  have hb := validateBody_doc img env "license" hrt hf (Or.inr rfl)
  have hd := validateDocument_license img h0
  by_cases ha : mkRat 6 5 ≤ aspectOf img ∧ aspectOf img ≤ 2
  · rw [validate_ok (o := ⟨true, true, false, false, false⟩)
        (by rw [hb, hd, if_pos ha])]
    exact ⟨iff_of_true rfl ha, rfl, rfl, rfl⟩
  · rw [validate_ok (o := ⟨false, true, false, false, false⟩)
        (by rw [hb, hd, if_neg ha])]
    exact ⟨iff_of_false (by decide) ha, rfl, rfl, rfl⟩

/-- C10 witness: a 150×100 PNG license (aspect 1.5) is accepted with no
    text check executed. -/
theorem C10_witness :
    (validate (some imgLicenseCard) envOff "license").accepted = true ∧
    (validate (some imgLicenseCard) envOff "license").textChecked = false := by
  have h := C10_license_aspect_only imgLicenseCard envOff rfl (by decide) (by decide)
  exact ⟨h.1.mpr (by decide), h.2.2.1⟩
